import Mathlib

/-!
Verification development for the UX Starter Apps Script file
(slide-starter).  The Apps Script functions are embedded shallowly:

* JS strings are Lean `String`s; a possibly `undefined` JS value (an
  out-of-range array read, an unset document property) is an
  `Option String` with `none` for `undefined`/`null`.
* Side effects are made explicit: toasts become a returned list of
  messages, the slide-building calls become returned records, and a
  thrown JS `TypeError` becomes `Except.error`.
* `documentProperties` is a record of the document properties the file
  reads.  The `*_ROW` properties are used numerically by the source
  (`getProperty(...) - 1`); the record stores their numeric value as an
  `Int`, so that out-of-range and negative configured indices are
  representable.
* Drive folder search (`folder.searchFiles` with the query
  `title contains <id> and mimeType contains image`) is external Google
  Drive behaviour; it is modelled as filtering a file list by substring
  containment on title and mime type, in enumeration order.
-/

namespace SlideStarter

/-- JS `String.prototype.split` with a one-character separator, on the
character list of a string.  `List.splitOn` agrees with the JS
semantics, in particular splitting the empty string yields `[[]]`,
matching JS where the result is `[..]` with one empty string. -/
def jsSplit (c : Char) (s : String) : List String :=
  (s.data.splitOn c).map (fun l => ⟨l⟩)

/-- JS `Array.prototype.join` with a one-character separator. -/
def jsJoin (c : Char) (xs : List String) : String :=
  ⟨List.intercalate [c] (xs.map String.data)⟩

/-- JS string coercion of a possibly undefined value, as performed by
the `+` operator: `undefined` coerces to the text `undefined`. -/
def jsCoerceString : Option String → String
  | none => "undefined"
  | some s => s

/-- JS array indexing `row[i]`: any index outside the array bounds
(negative ones included) yields `undefined`. -/
def jsIndex (row : List String) (i : Int) : Option String :=
  if i < 0 then none else row.get? i.toNat

/-- JS `String.prototype.trim`: strips whitespace from both ends. -/
def jsTrim (s : String) : String :=
  ⟨((s.data.dropWhile (fun c => c.isWhitespace)).reverse.dropWhile
      (fun c => c.isWhitespace)).reverse⟩

/-- Calling `.split` on a row cell: a JS `TypeError` is thrown when the
cell is `undefined`, otherwise the cell is split. -/
def jsSplitCell (c : Char) : Option String → Except String (List String)
  | none => Except.error ("TypeError: Cannot read properties of undefined")
  | some s => Except.ok (jsSplit c s)

/-- Boolean test that an `Except` computation finished without throwing. -/
def exceptOk {ε α : Type} : Except ε α → Bool
  | Except.ok _ => true
  | Except.error _ => false

-- Error messages (source lines 9 to 12)

def ERROR_NO_SPREADSHEET : String := "UX Starter must be attached to a spreadsheet."

def ERROR_NO_DECK : String := "There was a problem opening the generated deck."

def ERROR_CREATING_IMAGES : String := "There was a problem creating the image mockups."

def ERROR_MULTIPLE_FOLDERS : String := "Please ensure there is only one folder named "

-- Warning messages (source lines 15 and 16)

def WARNING_NO_IMAGES : String := "No image found for criteria id "

def WARNING_MULTIPLE_IMAGES : String := "No image found for criteria id "

def NUM_PROPERTIES : Nat := 16

/-- The document properties read by the file.  The seven `*_ROW`
properties hold the numeric value JS obtains from
`getProperty(..) - 1 + 1`; the remaining three are the raw string
properties, `none` when unset (JS `null`). -/
structure DocumentProperties where
  recommendationsCriteriaIdRow : Int
  recommendationsCriteriaNameRow : Int
  recommendationsAppliesRow : Int
  recommendationsProblemStatementRow : Int
  recommendationsSolutionStatementRow : Int
  recommendationsImageMockupRow : Int
  recommendationsInsightsRow : Int
  defaultImageMockup : Option String
  insightsDeckId : Option String
  endSlideId : Option String
deriving DecidableEq

/-- The arguments `parseFieldsAndCreateSlide` hands to
`createRecommendationSlideGAS`, together with whether it goes on to
call `appendInsightSlides` (the guard `insights.length > 0`). -/
structure RecommendationSlideCall where
  criteriaId : Option String
  criteria : Option String
  applicable : String
  description : String
  imageMockup : Option String
  insights : List String
  callsAppendInsightSlides : Bool
deriving DecidableEq

/-- Embedding of `parseFieldsAndCreateSlide` (source lines 54 to 93):
the field extraction from the row and the decision to call the insight
appender.  The slide-creation side effects are returned as a record;
a thrown `TypeError` (calling `.split` on an undefined cell) is
`Except.error`. -/
def parseFieldsAndCreateSlide (props : DocumentProperties) (row : List String) :
    Except String RecommendationSlideCall := do
  let criteriaIdIndex := props.recommendationsCriteriaIdRow - 1
  let criteriaNameIndex := props.recommendationsCriteriaNameRow - 1
  let criteriaAppliesIndex := props.recommendationsAppliesRow - 1
  let criteriaProblemStatementIndex := props.recommendationsProblemStatementRow - 1
  let criteriaSolutionStatementIndex := props.recommendationsSolutionStatementRow - 1
  let criteriaImageMockupIndex := props.recommendationsImageMockupRow - 1
  let criteriaDefaultImageUrl := props.defaultImageMockup
  let criteriaInsightSlidesIndex := props.recommendationsInsightsRow - 1
  let criteriaId := jsIndex row criteriaIdIndex
  let criteria := jsIndex row criteriaNameIndex
  let appliesParts ← jsSplitCell ',' (jsIndex row criteriaAppliesIndex)
  let applicable := "Applies for: " ++ jsJoin ',' appliesParts
  let description := jsCoerceString (jsIndex row criteriaProblemStatementIndex) ++ "\n" ++
      jsCoerceString (jsIndex row criteriaSolutionStatementIndex)
  let imageMockup := if jsIndex row criteriaImageMockupIndex = some ("") then
      criteriaDefaultImageUrl else jsIndex row criteriaImageMockupIndex
  let insights ← jsSplitCell ',' (jsIndex row criteriaInsightSlidesIndex)
  Except.ok ⟨criteriaId, criteria, applicable, description, imageMockup, insights,
      decide (insights.length > 0)⟩

/-- A file stored in the Drive folder of client screenshots. -/
structure DriveFile where
  title : String
  mimeType : String
deriving DecidableEq

/-- Whether the character list `pat` occurs at the start of `s`. -/
def startsWithChars : List Char → List Char → Bool
  | _, [] => true
  | [], _ :: _ => false
  | a :: as, p :: ps => a == p && startsWithChars as ps

/-- Whether the character list `pat` occurs somewhere inside `s`. -/
def containsChars (pat : List Char) : List Char → Bool
  | [] => startsWithChars [] pat
  | a :: t => startsWithChars (a :: t) pat || containsChars pat t

/-- Substring containment as used by the Drive query operator
`contains` in the search query of `retrieveClientImage`. -/
def driveContains (s pat : String) : Bool :=
  containsChars pat.data s.data

/-- Model of `folder.searchFiles` with the query built at source lines
161 and 162: the folder files whose title contains the criteria id and
whose mime type contains `image`, in enumeration order. -/
def searchFiles (folder : List DriveFile) (criteriaId : String) : List DriveFile :=
  folder.filter (fun f => driveContains f.title criteriaId &&
    driveContains f.mimeType ("image"))

/-- The JS value returned by `retrieveClientImage`: an image `File`, a
URL string (the default image mockup property), or `null`. -/
inductive ImageResult where
  | null : ImageResult
  | file : DriveFile → ImageResult
  | url : String → ImageResult
deriving DecidableEq

/-- Embedding of `retrieveClientImage` (source lines 160 to 183).
`defaultImageMockup` is the `DEFAULT_IMAGE_MOCKUP` document property
(`none` when unset).  Returns the JS return value paired with the list
of toast messages sent to the spreadsheet, in order.  The iterator
`files` is walked exactly as the source does: one `next()` when the
first `hasNext()` succeeds, then a second `hasNext()` check. -/
def retrieveClientImage (folder : List DriveFile) (criteriaId : String)
    (defaultImageMockup : Option String) : ImageResult × List String :=
  match searchFiles folder criteriaId with
  | [] =>
    -- first hasNext() fails: file stays null, the no-images toast fires,
    -- the second hasNext() also fails, and file is replaced by the
    -- DEFAULT_IMAGE_MOCKUP property (null when unset).
    (match defaultImageMockup with
      | some u => ImageResult.url u
      | none => ImageResult.null,
     [WARNING_NO_IMAGES ++ criteriaId])
  | f :: rest =>
    -- first hasNext() succeeds: file := files.next() takes the FIRST
    -- match; if the iterator still has elements the multiple-images
    -- toast fires, but file is never advanced again.
    (ImageResult.file f,
     if rest.isEmpty then [] else [WARNING_MULTIPLE_IMAGES ++ criteriaId])

/-- The Google Slides linking modes used by `appendSlide`. -/
inductive SlideLinkingMode where
  | NOT_LINKED : SlideLinkingMode
  | LINKED : SlideLinkingMode
deriving DecidableEq

/-- The effect of `applyCustomStyle`: which slide, from which deck, is
appended to which deck, and in which linking mode. -/
structure AppendedEndSlide where
  targetDeckId : String
  sourceDeckId : String
  endSlideLookupId : String
  linkingMode : SlideLinkingMode
deriving DecidableEq

/-- Embedding of `applyCustomStyle` (source lines 191 to 198): opens
the generated deck and the insights deck, reads `END_SLIDE_ID`, trims
it, looks the slide up in the insights deck and appends it to the
generated deck with `SlideLinkingMode.NOT_LINKED`.  An unset
`INSIGHTS_DECK_ID` makes `openById(null)` throw; an unset
`END_SLIDE_ID` makes `null.trim()` throw a `TypeError`. -/
def applyCustomStyle (props : DocumentProperties) (newDeckId : String) :
    Except String AppendedEndSlide :=
  match props.insightsDeckId with
  | none => Except.error ("Exception: openById requires a deck id")
  | some insightsId =>
    match props.endSlideId with
    | none => Except.error ("TypeError: Cannot read properties of null")
    | some endSlideProp =>
      Except.ok ⟨newDeckId, insightsId, jsTrim endSlideProp, SlideLinkingMode.NOT_LINKED⟩

end SlideStarter

namespace SlideStarter

/-! Concrete document properties, rows and files used to instantiate
the theorems below. -/

/-- A well-formed configuration: row properties 1 to 7 in spreadsheet
numbering, a default mockup URL, an insights deck id and an end slide
id with surrounding whitespace. -/
def propsA : DocumentProperties :=
  ⟨1, 2, 3, 4, 5, 6, 7, some ("http://default-mockup"), some ("insights-deck"),
    some (" end-slide ")⟩

/-- A configuration whose applies-to row property points outside any
seven-cell row. -/
def propsBadApplies : DocumentProperties :=
  ⟨1, 2, 30, 4, 5, 6, 7, some ("http://default-mockup"), none, none⟩

/-- A row with an empty image-mockup cell and an empty insights cell. -/
def rowA : List String :=
  ["C1", "Crit name", "Page A,Page B", "Problem", "Solution", "", ""]

/-- A row whose image-mockup cell is a single space and whose insights
cell holds two ids. -/
def rowWS : List String :=
  ["C1", "Crit name", "Page A", "Problem", "Solution", " ", "i1,i2"]

/-- The slide-builder call produced from `propsA` and `rowA`. -/
def callA : RecommendationSlideCall :=
  ⟨some ("C1"), some ("Crit name"), "Applies for: Page A,Page B",
    "Problem\nSolution", some ("http://default-mockup"), [""], true⟩

/-- The slide-builder call produced from `propsA` and `rowWS`. -/
def callWS : RecommendationSlideCall :=
  ⟨some ("C1"), some ("Crit name"), "Applies for: Page A",
    "Problem\nSolution", some (" "), ["i1", "i2"], true⟩

/-- Two image files whose titles both contain the criteria id
`crit-7`. -/
def fA : DriveFile := ⟨"crit-7 a", "image/png"⟩

/-- Companion to `fA`, enumerated second in the folder. -/
def fB : DriveFile := ⟨"crit-7 b", "image/png"⟩

/-- An image file matching the criteria id `crit-1`. -/
def fOne : DriveFile := ⟨"crit-1 screenshot", "image/png"⟩

/-- A folder entry matching no criteria id used below. -/
def fOther : DriveFile := ⟨"unrelated", "text/plain"⟩

/-! Helper lemmas. -/

/-- Splitting a JS string on a character and joining the pieces on the
same character is the identity. -/
theorem jsJoin_jsSplit (c : Char) (s : String) : jsJoin c (jsSplit c s) = s := by
  unfold jsJoin jsSplit
  rw [List.map_map]
  have h : (String.data ∘ fun l : List Char => (⟨l⟩ : String)) = id := by
    funext l; rfl
  rw [h, List.map_id, List.intercalate_splitOn]

/-- Inversion for a successful run of `parseFieldsAndCreateSlide`: the
applies-to and insights cells were defined, and the resulting record is
the one built field by field from the row. -/
theorem parseFields_ok_inv (props : DocumentProperties) (row : List String)
    (r : RecommendationSlideCall)
    (hok : parseFieldsAndCreateSlide props row = Except.ok r) :
    ∃ sa si, jsIndex row (props.recommendationsAppliesRow - 1) = some sa ∧
      jsIndex row (props.recommendationsInsightsRow - 1) = some si ∧
      r = ⟨jsIndex row (props.recommendationsCriteriaIdRow - 1),
           jsIndex row (props.recommendationsCriteriaNameRow - 1),
           "Applies for: " ++ jsJoin ',' (jsSplit ',' sa),
           jsCoerceString (jsIndex row (props.recommendationsProblemStatementRow - 1)) ++ "\n" ++
             jsCoerceString (jsIndex row (props.recommendationsSolutionStatementRow - 1)),
           (if jsIndex row (props.recommendationsImageMockupRow - 1) = some ("") then
              props.defaultImageMockup else jsIndex row (props.recommendationsImageMockupRow - 1)),
           jsSplit ',' si,
           decide ((jsSplit ',' si).length > 0)⟩ := by
  cases ha : jsIndex row (props.recommendationsAppliesRow - 1) with
  | none =>
    simp [parseFieldsAndCreateSlide, jsSplitCell, bind, Except.bind, ha] at hok
  | some sa =>
    cases hi : jsIndex row (props.recommendationsInsightsRow - 1) with
    | none =>
      simp [parseFieldsAndCreateSlide, jsSplitCell, bind, Except.bind, ha, hi] at hok
    | some si =>
      simp only [parseFieldsAndCreateSlide, jsSplitCell, bind, Except.bind, ha, hi,
        Except.ok.injEq] at hok
      exact ⟨sa, si, rfl, rfl, hok.symm⟩

end SlideStarter

namespace SlideStarter

/-! Claim theorems. -/

/-- Claim C1: with two or more matching image files, the code takes the
first enumerated match, not the last: one `files.next()` call is
followed only by a `hasNext()` check that fires the toast.  On a folder
whose search yields the two distinct files `fA` then `fB`, the function
returns `fA` (the first) together with exactly one warning toast,
contradicting the claimed (and doc-commented) selection of the last
match. -/
theorem retrieveClientImage_multiple_returns_first_with_one_toast :
    searchFiles [fA, fB] ("crit-7") = [fA, fB] ∧
    retrieveClientImage [fA, fB] ("crit-7") (some ("http://d")) =
      (ImageResult.file fA, [WARNING_MULTIPLE_IMAGES ++ "crit-7"]) ∧
    fA ≠ fB :=
  ⟨rfl, rfl, by decide⟩

/-- Claim C2: with the default image configured, `retrieveClientImage`
toasts exactly one warning precisely when the number of matching files
is not one; with exactly one match it returns that file with no toast;
with zero matches it returns the default URL with exactly the
no-images toast. -/
theorem retrieveClientImage_toast_iff_not_unique (folder : List DriveFile)
    (criteriaId u : String) :
    ((retrieveClientImage folder criteriaId (some u)).2.length = 1 ↔
      (searchFiles folder criteriaId).length ≠ 1) ∧
    (∀ f, searchFiles folder criteriaId = [f] →
      retrieveClientImage folder criteriaId (some u) = (ImageResult.file f, [])) ∧
    (searchFiles folder criteriaId = [] →
      retrieveClientImage folder criteriaId (some u) =
        (ImageResult.url u, [WARNING_NO_IMAGES ++ criteriaId])) := by
  cases h : searchFiles folder criteriaId with
  | nil => simp [retrieveClientImage, h]
  | cons f rest =>
    cases rest with
    | nil => simp [retrieveClientImage, h]
    | cons g rest2 => simp [retrieveClientImage, h]

/-- Claim C2 witness: a folder with exactly one file matching `crit-1`
returns that file and no toast. -/
theorem retrieveClientImage_toast_iff_not_unique_witness :
    retrieveClientImage [fOther, fOne] ("crit-1") (some ("http://d")) =
      (ImageResult.file fOne, []) :=
  (retrieveClientImage_toast_iff_not_unique [fOther, fOne] ("crit-1") ("http://d")).2.1
    fOne rfl

/-- Claim C3: the guard `insights.length > 0` never fails, because the
JS split of the empty string is a one-element array holding the empty
string.  On a row whose insights cell is the empty string, parsing
succeeds and still flags the `appendInsightSlides` call, with `[..]`
one empty insight id as its argument. -/
theorem parseFields_empty_insights_still_calls_appender :
    jsIndex rowA (propsA.recommendationsInsightsRow - 1) = some ("") ∧
    parseFieldsAndCreateSlide propsA rowA = Except.ok callA ∧
    callA.callsAppendInsightSlides = true ∧ callA.insights = [""] :=
  ⟨rfl, rfl, rfl, rfl⟩

/-- Claim C4 counterexample: with the applies-to row property pointing
outside the row, field extraction does not degrade to blank text: it
throws a `TypeError` (JS `.split` called on `undefined`). -/
theorem parseFields_out_of_range_applies_throws :
    parseFieldsAndCreateSlide propsBadApplies rowA =
      Except.error ("TypeError: Cannot read properties of undefined") :=
  rfl

/-- Claim C4 amended: extraction completes without an error exactly
when the applies-to and insights cells exist; all the other configured
indices may be malformed without raising (their fields degrade to
undefined or to the text `undefined`), while a malformed applies-to or
insights index throws. -/
theorem parseFields_ok_eq_cells_present (props : DocumentProperties)
    (row : List String) :
    exceptOk (parseFieldsAndCreateSlide props row) =
      ((jsIndex row (props.recommendationsAppliesRow - 1)).isSome &&
       (jsIndex row (props.recommendationsInsightsRow - 1)).isSome) := by
  cases ha : jsIndex row (props.recommendationsAppliesRow - 1) with
  | none =>
    simp [parseFieldsAndCreateSlide, jsSplitCell, bind, Except.bind, ha, exceptOk]
  | some sa =>
    cases hi : jsIndex row (props.recommendationsInsightsRow - 1) with
    | none =>
      simp [parseFieldsAndCreateSlide, jsSplitCell, bind, Except.bind, ha, hi, exceptOk]
    | some si =>
      simp [parseFieldsAndCreateSlide, jsSplitCell, bind, Except.bind, ha, hi, exceptOk]

/-- Claim C5: the multiple-images warning text is character for
character the no-images warning text, the literal
`No image found for criteria id `. -/
theorem warning_messages_identical :
    WARNING_NO_IMAGES = WARNING_MULTIPLE_IMAGES ∧
    WARNING_MULTIPLE_IMAGES = "No image found for criteria id " :=
  ⟨rfl, rfl⟩

/-- Claim C6: in a successful parse with the default mockup configured,
a blank image-mockup cell makes the image source the configured default
URL, and any other cell value is passed through unchanged. -/
theorem parseFields_imageMockup_default_subst (props : DocumentProperties)
    (row : List String) (u : String) (r : RecommendationSlideCall)
    (hdef : props.defaultImageMockup = some u)
    (hok : parseFieldsAndCreateSlide props row = Except.ok r) :
    (jsIndex row (props.recommendationsImageMockupRow - 1) = some ("") →
      r.imageMockup = some u) ∧
    (∀ s, jsIndex row (props.recommendationsImageMockupRow - 1) = some s →
      s ≠ "" → r.imageMockup = some s) := by
  obtain ⟨sa, si, ha, hi, hr⟩ := parseFields_ok_inv props row r hok
  subst hr
  constructor
  · intro hemp
    simp [hemp, hdef]
  · intro s hs hne
    simp [hs, hne]

/-- Claim C6 witness: on `rowA`, whose image cell is blank, the image
source is the configured default mockup URL. -/
theorem parseFields_imageMockup_default_subst_witness :
    callA.imageMockup = some ("http://default-mockup") :=
  (parseFields_imageMockup_default_subst propsA rowA ("http://default-mockup")
    callA rfl rfl).1 rfl

/-- Claim C7: in a successful parse, the subtitle is the literal text
`Applies for: ` followed by the applies-to cell unchanged: splitting on
commas and rejoining is the identity. -/
theorem parseFields_applicable_preserves_cell (props : DocumentProperties)
    (row : List String) (r : RecommendationSlideCall) (s : String)
    (hok : parseFieldsAndCreateSlide props row = Except.ok r)
    (hs : jsIndex row (props.recommendationsAppliesRow - 1) = some s) :
    r.applicable = "Applies for: " ++ s := by
  obtain ⟨sa, si, ha, hi, hr⟩ := parseFields_ok_inv props row r hok
  subst hr
  have hsa : sa = s := by
    have := ha.symm.trans hs
    exact Option.some.inj this
  subst hsa
  show "Applies for: " ++ jsJoin ',' (jsSplit ',' sa) = "Applies for: " ++ sa
  rw [jsJoin_jsSplit]

/-- Claim C7 witness: the cell `Page A,Page B` produces exactly the
subtitle `Applies for: Page A,Page B`. -/
theorem parseFields_applicable_preserves_cell_witness :
    callA.applicable = "Applies for: Page A,Page B" :=
  parseFields_applicable_preserves_cell propsA rowA callA ("Page A,Page B") rfl rfl

/-- Claim C8: with the insights deck id and end slide id configured,
`applyCustomStyle` appends to the generated deck the slide of the
insights deck whose id is the trimmed `END_SLIDE_ID` property, in
unlinked mode. -/
theorem applyCustomStyle_appends_trimmed_end_slide (props : DocumentProperties)
    (newDeckId d e : String)
    (hd : props.insightsDeckId = some d) (he : props.endSlideId = some e) :
    applyCustomStyle props newDeckId =
      Except.ok ⟨newDeckId, d, jsTrim e, SlideLinkingMode.NOT_LINKED⟩ := by
  simp [applyCustomStyle, hd, he]

/-- Claim C8 witness: with the end slide property ` end-slide `, the
slide looked up is `end-slide` and it is appended unlinked to the new
deck. -/
theorem applyCustomStyle_appends_trimmed_end_slide_witness :
    applyCustomStyle propsA ("new-deck") =
      Except.ok ⟨"new-deck", "insights-deck", "end-slide",
        SlideLinkingMode.NOT_LINKED⟩ := by
  rw [applyCustomStyle_appends_trimmed_end_slide propsA ("new-deck")
    ("insights-deck") (" end-slide ") rfl rfl]
  rfl

/-- Claim C9: the default is substituted only under strict equality
with the empty string: any other cell value, whitespace included, is
passed verbatim as the image source. -/
theorem parseFields_imageMockup_verbatim_nonempty (props : DocumentProperties)
    (row : List String) (r : RecommendationSlideCall) (s : String)
    (hok : parseFieldsAndCreateSlide props row = Except.ok r)
    (hs : jsIndex row (props.recommendationsImageMockupRow - 1) = some s)
    (hne : s ≠ "") : r.imageMockup = some s := by
  obtain ⟨sa, si, ha, hi, hr⟩ := parseFields_ok_inv props row r hok
  subst hr
  simp [hs, hne]

/-- Claim C9 witness: a cell holding a single space is kept verbatim
and differs from the configured default. -/
theorem parseFields_imageMockup_verbatim_nonempty_witness :
    callWS.imageMockup = some (" ") ∧ propsA.defaultImageMockup ≠ some (" ") :=
  ⟨parseFields_imageMockup_verbatim_nonempty propsA rowWS callWS (" ") rfl rfl
    (by decide), by decide⟩

/-- Claim C10: with zero matching files and the `DEFAULT_IMAGE_MOCKUP`
property unset, `retrieveClientImage` returns JS `null` (after the
no-images toast), not a file or a URL string. -/
theorem retrieveClientImage_unset_default_null (folder : List DriveFile)
    (criteriaId : String) (h : searchFiles folder criteriaId = []) :
    retrieveClientImage folder criteriaId none =
      (ImageResult.null, [WARNING_NO_IMAGES ++ criteriaId]) := by
  simp [retrieveClientImage, h]

/-- Claim C10 witness: a folder with no matching file and no configured
default yields `null` and the no-images toast. -/
theorem retrieveClientImage_unset_default_null_witness :
    retrieveClientImage [fOther] ("crit-9") none =
      (ImageResult.null, [WARNING_NO_IMAGES ++ "crit-9"]) :=
  retrieveClientImage_unset_default_null [fOther] ("crit-9") rfl

end SlideStarter
